import Mathlib

/-!
Verification of the installer repository fragment: the kubevirt machine-pool
validation function, the kubevirt infra-cluster client wrapper (delete with a
bounded wait loop, list with label filtering, kubeconfig loading), and the
generated OperationProgress message getters.

External library calls (the Kubernetes quantity parser, the dynamic cluster
client, the environment and filesystem) are modelled as explicit parameters,
so each function of the repository becomes a pure Lean function of the code
it actually contains.
-/

namespace Installer

/-! ## Validation: pkg/types/kubevirt/validation/machinepool.go -/

namespace Validation

/-- MachinePool, reconstructed from its use in machinepool.go and the spec's
data model (a CPU count, a storage size and a memory size expressed as
quantity strings): the type itself is declared outside this fragment. -/
structure MachinePool where
  CPU : Int
  StorageSize : String
  Memory : String
deriving DecidableEq, Repr

/-- The value carried by a field error: ValidateMachinePool passes the CPU
count (an integer) or the raw quantity string. -/
inductive ErrValue where
  | ofInt : Int → ErrValue
  | ofString : String → ErrValue
deriving DecidableEq, Repr

/-- One entry of a field.ErrorList as produced by field.Invalid: the field
path (field.Path modelled as the list of path components, Child appending a
component), the offending value and the detail message. -/
structure FieldError where
  field : List String
  value : ErrValue
  detail : String
deriving DecidableEq, Repr

/-- ValidateMachinePool from machinepool.go. The external Kubernetes quantity
machinery is a parameter: Q is the quantity type, sign models
Quantity.Sign (1 for positive), and parseQuantity models
resource.ParseQuantity, returning none exactly when parsing fails. -/
def ValidateMachinePool {Q : Type} (sign : Q → Int) (parseQuantity : String → Option Q)
    (p : MachinePool) (fldPath : List String) : List FieldError :=
  let allErrs : List FieldError := []
  let allErrs := if p.CPU ≤ 0 then
      allErrs ++ [⟨fldPath ++ ["cpu"], ErrValue.ofInt p.CPU, "CPU must be positive"⟩]
    else allErrs
  let allErrs :=
    match parseQuantity p.StorageSize with
    | none =>
        allErrs ++ [⟨fldPath ++ ["storage"], ErrValue.ofString p.StorageSize,
          "Storage size must be of Quantity type format"⟩]
    | some storageQuantity =>
        if sign storageQuantity ≠ 1 then
          allErrs ++ [⟨fldPath ++ ["storage"], ErrValue.ofString p.StorageSize,
            "Storage size must be positive value"⟩]
        else allErrs
  let allErrs :=
    match parseQuantity p.Memory with
    | none =>
        allErrs ++ [⟨fldPath ++ ["memory"], ErrValue.ofString p.Memory,
          "Memory must be of Quantity type format"⟩]
    | some memoryQuantity =>
        if sign memoryQuantity ≠ 1 then
          allErrs ++ [⟨fldPath ++ ["memory"], ErrValue.ofString p.Memory,
            "Memory must be positive value"⟩]
        else allErrs
  allErrs

end Validation

/-! ## Client wrapper: the kubevirt infra-cluster client (client.go) -/

namespace Kubevirt

/-- The name of the environment variable holding the kubeconfig path. -/
def kubeConfigEnvName : String := "KUBECONFIG"

/-- filepath.Join: joins the non-empty components with the separator. The
additional lexical cleaning Go applies is the identity on the paths
occurring here. -/
def filepathJoin (elems : List String) : String :=
  String.intercalate "/" (elems.filter (fun s => s ≠ ""))

/-- The default kubeconfig path, filepath.Join(os.Getenv("HOME"), ".kube",
"config"); the environment is the parameter getenv (os.Getenv returns "" for
an unset variable). -/
def kubeConfigDefaultFilename (getenv : String → String) : String :=
  filepathJoin [getenv "HOME", ".kube", "config"]

/-- LoadKubeConfigContent from client.go. The environment and the filesystem
are parameters: getenv models os.Getenv and readFile models ioutil.ReadFile,
whose result (content plus error, of abstract type R) is returned unchanged. -/
def LoadKubeConfigContent {R : Type} (getenv : String → String)
    (readFile : String → R) : R :=
  let kubeConfigFilename := getenv kubeConfigEnvName
  let kubeConfigFilename :=
    if kubeConfigFilename = "" then kubeConfigDefaultFilename getenv
    else kubeConfigFilename
  readFile kubeConfigFilename

/-- schema.GroupVersionResource. -/
structure GroupVersionResource where
  group : String
  version : String
  resource : String
deriving DecidableEq, Repr

/-- The virtualmachines resource; group and version are the values of the
external constant kubevirtapiv1.GroupVersion. -/
def vmRes : GroupVersionResource := ⟨"kubevirt.io", "v1", "virtualmachines"⟩

/-- The datavolumes resource; group and version are the values of the
external constant cdiapiv1alpa1.SchemeGroupVersion. -/
def dvRes : GroupVersionResource := ⟨"cdi.kubevirt.io", "v1alpha1", "datavolumes"⟩

/-- The secrets resource; group and version are the values of the external
constant corev1.SchemeGroupVersion. -/
def secretRes : GroupVersionResource := ⟨"", "v1", "secrets"⟩

/-- An unstructured cluster object, restricted to the accessors client.go
uses: GetName, GetNamespace and GetLabels (labels as an association list,
one entry per key as in a Go map). -/
structure Unstructured where
  name : String
  ns : String
  labels : List (String × String)
deriving DecidableEq, Repr

/-- The error returned by deleteResource: either an error of the underlying
delete call propagated verbatim, or the local budget-exceeded error built by
fmt.Errorf with its message. -/
inductive DeleteErr (ε : Type) where
  | api : ε → DeleteErr ε
  | budgetExceeded : String → DeleteErr ε
deriving DecidableEq, Repr

/-- The message of the budget-exceeded error of deleteResource, verbatim
from the fmt.Errorf call. -/
def deleteWaitMessage (name : String) : String :=
  "Failed to delete resource " ++ name ++ ", checked 5 times and the vm stil exists"

/-- The wait loop of deleteResource. The existence checks are a parameter:
get k is the error component of the k-th getResource call (none when the
call succeeds, i.e. the resource still exists). The Go loop runs with a
counter from 0, returns the budget error once the counter reaches 5, and
exits with nil as soon as a getResource call errors; here fuel counts the
remaining iterations down from 5, and the call made when fuel + 1 iterations
remain is get (4 - fuel), so the polls are get 0 up to get 4 in order. -/
def deleteWaitLoop {γ : Type} (get : Nat → Option γ) (name : String) :
    Nat → Option String
  | 0 => some (deleteWaitMessage name)
  | fuel + 1 =>
      match get (4 - fuel) with
      | some _ => none
      | none => deleteWaitLoop get name fuel

/-- deleteResource from client.go. The cluster calls are parameters:
deleteErr is the error component of the underlying dynamic-client Delete
call, and get k the error component of the k-th subsequent getResource
existence check. Returns none for the nil error. -/
def deleteResource {ε γ : Type} (deleteErr : Option ε) (get : Nat → Option γ)
    (name : String) (wait : Bool) : Option (DeleteErr ε) :=
  match deleteErr with
  | some e => some (DeleteErr.api e)
  | none =>
      if !wait then none
      else
        match deleteWaitLoop get name 5 with
        | some msg => some (DeleteErr.budgetExceeded msg)
        | none => none

/-- The inner loop of listResource over requiredLabels: break (true) at the
first required key that is present among the object labels with an equal
value; a key present with a different value does not break. -/
def labelsMatchAny (existLabels : List (String × String)) :
    List (String × String) → Bool
  | [] => false
  | kv :: rest =>
      match List.lookup kv.fst existLabels with
      | some existVal =>
          if existVal = kv.snd then true else labelsMatchAny existLabels rest
      | none => labelsMatchAny existLabels rest

/-- listResource from client.go. The underlying dynamic-client List call is
the parameter listResult (its items, or its error). Returns the Go pair
(result slice, error); the nil slice is the empty list. -/
def listResource {ε : Type} (ns : String) (requiredLabels : List (String × String))
    (listResult : Except ε (List Unstructured)) : List String × Option ε :=
  match listResult with
  | Except.error err => ([], some err)
  | Except.ok items =>
      (items.foldl (fun result d =>
        if d.ns ≠ ns then result
        else if labelsMatchAny d.labels requiredLabels then result ++ [d.name]
        else result) [], none)

/-- Follows the spec words for the list methods, for comparison with
listResource: the result of listing then filtering by namespace and label
equality, reading a resource as matching the required labels when every
required key is present among its labels with an equal value. -/
def listNamesSpecAllMatch (ns : String) (requiredLabels : List (String × String))
    (items : List Unstructured) : List String :=
  (items.filter fun d =>
    decide (d.ns = ns ∧ ∀ kv ∈ requiredLabels,
      List.lookup kv.fst d.labels = some kv.snd)).map Unstructured.name

/-- The dynamic cluster API as seen by the wrapper methods: for each resource
kind, namespace and name, the responses of the List, Delete and Get calls. -/
structure Cluster (ε : Type) where
  listItems : GroupVersionResource → String → Except ε (List Unstructured)
  deleteCall : GroupVersionResource → String → String → Option ε
  getCall : GroupVersionResource → String → String → Nat → Option ε

/-- A concrete cluster for evaluation: every list call answers with one
virtual machine named vm1 in namespace ns1 carrying the single label a=1,
and every delete and get call succeeds. -/
def sampleCluster : Cluster Unit where
  listItems := fun _ _ => Except.ok [⟨"vm1", "ns1", [("a", "1")]⟩]
  deleteCall := fun _ _ _ => none
  getCall := fun _ _ _ _ => none

/-- DeleteVirtualMachine from client.go. -/
def DeleteVirtualMachine {ε : Type} (c : Cluster ε) (ns : String) (name : String)
    (wait : Bool) : Option (DeleteErr ε) :=
  deleteResource (c.deleteCall vmRes ns name) (c.getCall vmRes ns name) name wait

/-- ListVirtualMachineNames from client.go. -/
def ListVirtualMachineNames {ε : Type} (c : Cluster ε) (ns : String)
    (requiredLabels : List (String × String)) : List String × Option ε :=
  listResource ns requiredLabels (c.listItems vmRes ns)

/-- DeleteDataVolume from client.go. -/
def DeleteDataVolume {ε : Type} (c : Cluster ε) (ns : String) (name : String)
    (wait : Bool) : Option (DeleteErr ε) :=
  deleteResource (c.deleteCall dvRes ns name) (c.getCall dvRes ns name) name wait

/-- ListDataVolumeNames from client.go. -/
def ListDataVolumeNames {ε : Type} (c : Cluster ε) (ns : String)
    (requiredLabels : List (String × String)) : List String × Option ε :=
  listResource ns requiredLabels (c.listItems dvRes ns)

/-- DeleteSecret from client.go. -/
def DeleteSecret {ε : Type} (c : Cluster ε) (ns : String) (name : String)
    (wait : Bool) : Option (DeleteErr ε) :=
  deleteResource (c.deleteCall secretRes ns name) (c.getCall secretRes ns name) name wait

/-- ListSecretNames from client.go. -/
def ListSecretNames {ε : Type} (c : Cluster ε) (ns : String)
    (requiredLabels : List (String × String)) : List String × Option ε :=
  listResource ns requiredLabels (c.listItems secretRes ns)

end Kubevirt

/-! ## Generated protobuf bindings: OperationProgress -/

namespace Admin

/-- timestamppb.Timestamp, restricted to its data fields. -/
structure Timestamp where
  seconds : Int
  nanos : Int
deriving DecidableEq, Repr

/-- OperationProgress from the generated common.pb.go: percent complete and
two optional timestamps (Go pointers modelled as Option). The generated
runtime-internal fields carry no data. -/
structure OperationProgress where
  ProgressPercent : Int
  StartTime : Option Timestamp
  EndTime : Option Timestamp
deriving DecidableEq, Repr

/-- GetProgressPercent on a possibly-nil receiver. -/
def GetProgressPercent (x : Option OperationProgress) : Int :=
  match x with
  | some x => x.ProgressPercent
  | none => 0

/-- GetStartTime on a possibly-nil receiver. -/
def GetStartTime (x : Option OperationProgress) : Option Timestamp :=
  match x with
  | some x => x.StartTime
  | none => none

/-- GetEndTime on a possibly-nil receiver. -/
def GetEndTime (x : Option OperationProgress) : Option Timestamp :=
  match x with
  | some x => x.EndTime
  | none => none

end Admin

/-! ## Theorems -/

open Validation Kubevirt Admin

/-- When every one of the five polls succeeds (the resource still exists),
the wait loop returns the budget-exceeded message. -/
lemma deleteWaitLoop_budget {γ : Type} (get : Nat → Option γ) (name : String)
    (h : ∀ k, k < 5 → get k = none) :
    deleteWaitLoop get name 5 = some (deleteWaitMessage name) := by
  have h0 := h 0 (by norm_num)
  have h1 := h 1 (by norm_num)
  have h2 := h 2 (by norm_num)
  have h3 := h 3 (by norm_num)
  have h4 := h 4 (by norm_num)
  simp [deleteWaitLoop, h0, h1, h2, h3, h4]

/-- When some poll among the five errors (the resource is reported gone),
the wait loop returns none. -/
lemma deleteWaitLoop_gone {γ : Type} (get : Nat → Option γ) (name : String)
    (k : Nat) (hk : k < 5) (hsome : (get k).isSome) :
    deleteWaitLoop get name 5 = none := by
  cases hg0 : get 0 with
  | some v => simp [deleteWaitLoop, hg0]
  | none =>
  cases hg1 : get 1 with
  | some v => simp [deleteWaitLoop, hg0, hg1]
  | none =>
  cases hg2 : get 2 with
  | some v => simp [deleteWaitLoop, hg0, hg1, hg2]
  | none =>
  cases hg3 : get 3 with
  | some v => simp [deleteWaitLoop, hg0, hg1, hg2, hg3]
  | none =>
  cases hg4 : get 4 with
  | some v => simp [deleteWaitLoop, hg0, hg1, hg2, hg3, hg4]
  | none =>
  exfalso
  interval_cases k <;> simp_all

/-- Whatever message the wait loop returns is the budget-exceeded message. -/
lemma deleteWaitLoop_some_eq {γ : Type} (get : Nat → Option γ) (name : String) :
    ∀ fuel msg, deleteWaitLoop get name fuel = some msg → msg = deleteWaitMessage name := by
  intro fuel
  induction fuel with
  | zero =>
      intro msg h
      simp only [deleteWaitLoop, Option.some.injEq] at h
      exact h.symm
  | succ n ih =>
      intro msg h
      simp only [deleteWaitLoop] at h
      cases hg : get (4 - n) with
      | some v => rw [hg] at h; exact absurd h (by simp)
      | none => rw [hg] at h; exact ih msg h

/-- The wait loop reads only the first five polls. -/
lemma deleteWaitLoop_congr {γ : Type} (g h : Nat → Option γ) (name : String)
    (hag : ∀ k, k < 5 → g k = h k) :
    deleteWaitLoop g name 5 = deleteWaitLoop h name 5 := by
  have e0 := hag 0 (by norm_num)
  have e1 := hag 1 (by norm_num)
  have e2 := hag 2 (by norm_num)
  have e3 := hag 3 (by norm_num)
  have e4 := hag 4 (by norm_num)
  norm_num [deleteWaitLoop]
  rw [e0, e1, e2, e3, e4]

/-- C1: with wait = true and a successful underlying delete, deleteResource
returns nil as soon as some existence check among the five reports the
resource absent, and returns the formatted budget-exceeded error naming the
resource when all five checks still find it. -/
theorem deleteResource_wait_outcome {ε γ : Type} (get : Nat → Option γ) (name : String) :
    ((∃ k, k < 5 ∧ (get k).isSome) →
      deleteResource (none : Option ε) get name true = none) ∧
    ((∀ k, k < 5 → get k = none) →
      deleteResource (none : Option ε) get name true =
        some (DeleteErr.budgetExceeded
          ("Failed to delete resource " ++ name ++
            ", checked 5 times and the vm stil exists"))) := by
  constructor
  · rintro ⟨k, hk, hs⟩
    simp [deleteResource, deleteWaitLoop_gone get name k hk hs]
  · intro h
    simp [deleteResource, deleteWaitLoop_budget get name h, deleteWaitMessage]

/-- Witness for C1 at concrete poll sequences. -/
theorem deleteResource_wait_outcome_witness :
    deleteResource (none : Option Unit)
      (fun k => if k = 2 then some () else none) "vm1" true = none ∧
    deleteResource (none : Option Unit) (fun _ => (none : Option Unit)) "vm1" true =
      some (DeleteErr.budgetExceeded
        ("Failed to delete resource " ++ "vm1" ++
          ", checked 5 times and the vm stil exists")) :=
  ⟨(deleteResource_wait_outcome (fun k => if k = 2 then some () else none) "vm1").1
      ⟨2, by norm_num, by simp⟩,
   (deleteResource_wait_outcome (fun _ => (none : Option Unit)) "vm1").2
      (fun _ _ => rfl)⟩

/-- C4: errors of the underlying cluster calls are propagated verbatim: a
failed delete is returned unchanged with no polling (the result does not
depend on the polls or the wait flag), and a failed list yields the nil name
slice together with the unchanged error. -/
theorem errors_propagated_verbatim {ε γ : Type} (e inner : ε) (get : Nat → Option γ)
    (name ns : String) (wait : Bool) (req : List (String × String)) :
    deleteResource (some e) get name wait = some (DeleteErr.api e) ∧
    listResource ns req (Except.error inner : Except ε (List Unstructured)) =
      ([], some inner) :=
  ⟨rfl, rfl⟩

/-- C5: the wait loop of deleteResource is fixed-iteration: its result reads
at most the first five existence checks (two poll sequences agreeing there
give the same result in every mode), and with wait = true after a successful
delete it terminates with either success or the budget-exceeded error. -/
theorem deleteResource_bounded_polls {ε γ : Type} (d : Option ε) (g h : Nat → Option γ)
    (name : String) (wait : Bool) :
    ((∀ k, k < 5 → g k = h k) →
      deleteResource d g name wait = deleteResource d h name wait) ∧
    (deleteResource (none : Option ε) g name true = none ∨
      deleteResource (none : Option ε) g name true =
        some (DeleteErr.budgetExceeded (deleteWaitMessage name))) := by
  constructor
  · intro hag
    cases d with
    | some e => rfl
    | none =>
        cases wait with
        | false => rfl
        | true => simp [deleteResource, deleteWaitLoop_congr g h name hag]
  · cases hl : deleteWaitLoop g name 5 with
    | none => left; simp [deleteResource, hl]
    | some msg =>
        right
        rw [deleteWaitLoop_some_eq g name 5 msg hl] at hl
        simp [deleteResource, hl]

/-- Witness for C5: two poll sequences that agree on the first five polls but
differ afterwards give equal results, and a concrete run ends in the budget
error. -/
theorem deleteResource_bounded_polls_witness :
    deleteResource (none : Option Unit) (fun _ => (none : Option Unit)) "vm2" true =
      deleteResource (none : Option Unit)
        (fun k => if k < 5 then none else some ()) "vm2" true ∧
    (deleteResource (none : Option Unit) (fun _ => (none : Option Unit)) "vm2" true = none ∨
      deleteResource (none : Option Unit) (fun _ => (none : Option Unit)) "vm2" true =
        some (DeleteErr.budgetExceeded (deleteWaitMessage "vm2"))) :=
  ⟨(deleteResource_bounded_polls (none : Option Unit) (fun _ => (none : Option Unit))
      (fun k => if k < 5 then none else some ()) "vm2" true).1
      (by intro k hk; simp [hk]),
   (deleteResource_bounded_polls (none : Option Unit) (fun _ => (none : Option Unit))
      (fun k => if k < 5 then none else some ()) "vm2" true).2⟩

/-- C9: in the wait loop, any error of the existence check, of whatever
error type and value, is treated as the resource being gone: the function
returns nil. -/
theorem deleteResource_any_error_means_gone {ε γ : Type} (get : Nat → Option γ)
    (e : γ) (k : Nat) (name : String) (hk : k < 5) (he : get k = some e) :
    deleteResource (none : Option ε) get name true = none := by
  simp [deleteResource, deleteWaitLoop_gone get name k hk (by simp [he])]

/-- The loop of listResource, expressed as a filter followed by a map, for
any initial accumulator. -/
lemma listResource_foldl_eq (ns : String) (req : List (String × String)) :
    ∀ (items : List Unstructured) (acc : List String),
      items.foldl (fun result d =>
        if d.ns ≠ ns then result
        else if labelsMatchAny d.labels req then result ++ [d.name]
        else result) acc
        = acc ++ (items.filter fun d =>
            decide (d.ns = ns) && labelsMatchAny d.labels req).map Unstructured.name := by
  intro items
  induction items with
  | nil => intro acc; simp
  | cons d rest ih =>
      intro acc
      have hstep : List.foldl
          (fun result d =>
            if d.ns ≠ ns then result
            else if labelsMatchAny d.labels req then result ++ [d.name]
            else result) acc (d :: rest)
          = List.foldl
            (fun result d =>
              if d.ns ≠ ns then result
              else if labelsMatchAny d.labels req then result ++ [d.name]
              else result)
            (if d.ns ≠ ns then acc
              else if labelsMatchAny d.labels req then acc ++ [d.name]
              else acc) rest := rfl
      rw [hstep]
      by_cases hns : d.ns = ns
      · by_cases hm : labelsMatchAny d.labels req = true
        · rw [if_neg (not_not_intro hns), if_pos hm, ih]
          have hf : List.filter
              (fun d => decide (d.ns = ns) && labelsMatchAny d.labels req) (d :: rest)
              = d :: List.filter
                  (fun d => decide (d.ns = ns) && labelsMatchAny d.labels req) rest := by
            simp [List.filter_cons, hns, hm]
          rw [hf]
          simp
        · rw [if_neg (not_not_intro hns), if_neg hm, ih]
          have hf : List.filter
              (fun d => decide (d.ns = ns) && labelsMatchAny d.labels req) (d :: rest)
              = List.filter
                  (fun d => decide (d.ns = ns) && labelsMatchAny d.labels req) rest := by
            simp [List.filter_cons, hns, hm]
          rw [hf]
      · rw [if_pos hns, ih]
        have hf : List.filter
            (fun d => decide (d.ns = ns) && labelsMatchAny d.labels req) (d :: rest)
            = List.filter
                (fun d => decide (d.ns = ns) && labelsMatchAny d.labels req) rest := by
          simp [List.filter_cons, hns]
        rw [hf]

/-- listResource on a successful list call equals filter-then-map. -/
lemma listResource_ok_eq {ε : Type} (ns : String) (req : List (String × String))
    (items : List Unstructured) :
    listResource (ε := ε) ns req (Except.ok items) =
      ((items.filter fun d =>
          decide (d.ns = ns) && labelsMatchAny d.labels req).map Unstructured.name,
        none) := by
  have h := listResource_foldl_eq ns req items []
  rw [List.nil_append] at h
  exact congrArg (fun l => (l, (none : Option ε))) h

/-- labelsMatchAny holds exactly when some required key-value pair occurs
among the object labels with an equal value. -/
lemma labelsMatchAny_iff (ex : List (String × String)) :
    ∀ req, labelsMatchAny ex req = true ↔
      ∃ kv ∈ req, List.lookup kv.fst ex = some kv.snd := by
  intro req
  induction req with
  | nil => simp [labelsMatchAny]
  | cons kv rest ih =>
      constructor
      · intro h
        simp only [labelsMatchAny] at h
        cases hl : List.lookup kv.fst ex with
        | some v =>
            rw [hl] at h
            have h2 : (if v = kv.snd then true else labelsMatchAny ex rest) = true := h
            by_cases hv : v = kv.snd
            · exact ⟨kv, List.mem_cons_self kv rest, by rw [hl, hv]⟩
            · rw [if_neg hv] at h2
              obtain ⟨kv2, hm, he⟩ := ih.mp h2
              exact ⟨kv2, List.mem_cons_of_mem kv hm, he⟩
        | none =>
            rw [hl] at h
            have h2 : labelsMatchAny ex rest = true := h
            obtain ⟨kv2, hm, he⟩ := ih.mp h2
            exact ⟨kv2, List.mem_cons_of_mem kv hm, he⟩
      · rintro ⟨kv2, hm, he⟩
        simp only [labelsMatchAny]
        rcases List.mem_cons.mp hm with hm | hm
        · subst hm
          rw [he]
          simp
        · cases hl : List.lookup kv.fst ex with
          | some v =>
              show (if v = kv.snd then true else labelsMatchAny ex rest) = true
              by_cases hv : v = kv.snd
              · rw [if_pos hv]
              · rw [if_neg hv]
                exact ih.mpr ⟨kv2, hm, he⟩
          | none =>
              show labelsMatchAny ex rest = true
              exact ih.mpr ⟨kv2, hm, he⟩

/-- Witness for C9: a non-not-found error string also counts as gone. -/
theorem deleteResource_any_error_means_gone_witness :
    deleteResource (none : Option Unit)
      (fun j => if j = 1 then some "transient api failure" else none) "vm3" true = none :=
  deleteResource_any_error_means_gone
    (fun j => if j = 1 then some "transient api failure" else none)
    "transient api failure" 1 "vm3" (by norm_num) (by simp)

/-- C6 counterexample: with an empty required-label map, the spec reading of
matching the required labels (all-match label equality) keeps the listed
virtual machine, but ListVirtualMachineNames returns no names. -/
theorem listVirtualMachineNames_allMatch_counterexample :
    (ListVirtualMachineNames sampleCluster "ns1" []).fst ≠
      listNamesSpecAllMatch "ns1" [] [⟨"vm1", "ns1", [("a", "1")]⟩] := by
  decide

/-- C6 (amended): ListVirtualMachineNames, ListDataVolumeNames and
ListSecretNames return exactly the names of the listed resources of the
respective kind that are in the namespace and have at least one required
key-value pair present among their labels with an equal value (any-match,
not all-match; in particular an empty required-label map selects nothing). -/
theorem listNames_filter_anyMatch {ε : Type} (c : Cluster ε) (ns : String)
    (req : List (String × String)) (vms dvs secrets : List Unstructured)
    (hvm : c.listItems vmRes ns = Except.ok vms)
    (hdv : c.listItems dvRes ns = Except.ok dvs)
    (hsec : c.listItems secretRes ns = Except.ok secrets) :
    ListVirtualMachineNames c ns req =
      ((vms.filter fun d => decide (d.ns = ns) && labelsMatchAny d.labels req).map
        Unstructured.name, none) ∧
    ListDataVolumeNames c ns req =
      ((dvs.filter fun d => decide (d.ns = ns) && labelsMatchAny d.labels req).map
        Unstructured.name, none) ∧
    ListSecretNames c ns req =
      ((secrets.filter fun d => decide (d.ns = ns) && labelsMatchAny d.labels req).map
        Unstructured.name, none) := by
  refine ⟨?_, ?_, ?_⟩
  · unfold ListVirtualMachineNames
    rw [hvm]
    exact listResource_ok_eq ns req vms
  · unfold ListDataVolumeNames
    rw [hdv]
    exact listResource_ok_eq ns req dvs
  · unfold ListSecretNames
    rw [hsec]
    exact listResource_ok_eq ns req secrets

/-- Witness for the amended C6 at the concrete sample cluster. -/
theorem listNames_filter_anyMatch_witness :
    ListVirtualMachineNames sampleCluster "ns1" [("a", "1")] = (["vm1"], none) :=
  ((listNames_filter_anyMatch sampleCluster "ns1" [("a", "1")]
      [⟨"vm1", "ns1", [("a", "1")]⟩] [⟨"vm1", "ns1", [("a", "1")]⟩]
      [⟨"vm1", "ns1", [("a", "1")]⟩] rfl rfl rfl).1).trans (by decide)

/-- C8: listResource includes a name exactly when some listed resource with
that name lies in the namespace and has at least one key-value pair of
requiredLabels present among its labels with an equal value; with an empty
requiredLabels map it returns no names. -/
theorem listResource_anyMatch_semantics {ε : Type} (ns n : String)
    (req : List (String × String)) (items : List Unstructured) :
    (n ∈ (listResource ns req (Except.ok items : Except ε (List Unstructured))).fst ↔
      ∃ d ∈ items, d.name = n ∧ d.ns = ns ∧
        ∃ kv ∈ req, List.lookup kv.fst d.labels = some kv.snd) ∧
    (listResource ns [] (Except.ok items : Except ε (List Unstructured))).fst = [] := by
  constructor
  · rw [listResource_ok_eq]
    simp only [List.mem_map, List.mem_filter, Bool.and_eq_true, decide_eq_true_eq,
      labelsMatchAny_iff]
    constructor
    · rintro ⟨d, ⟨hd, hns, hmatch⟩, hname⟩
      exact ⟨d, hd, hname, hns, hmatch⟩
    · rintro ⟨d, hd, hname, hns, hmatch⟩
      exact ⟨d, ⟨hd, hns, hmatch⟩, hname⟩
  · rw [listResource_ok_eq]
    simp [labelsMatchAny]

/-- C2: a machine pool with positive CPU whose storage and memory strings
parse in the quantity format to positive values validates with no errors. -/
theorem validateMachinePool_valid_ok {Q : Type} (sign : Q → Int)
    (parseQuantity : String → Option Q) (p : MachinePool) (fldPath : List String)
    (q r : Q) (hcpu : 0 < p.CPU)
    (hs : parseQuantity p.StorageSize = some q) (hsq : sign q = 1)
    (hm : parseQuantity p.Memory = some r) (hmq : sign r = 1) :
    ValidateMachinePool sign parseQuantity p fldPath = [] := by
  simp [ValidateMachinePool, hs, hm, hsq, hmq, not_le.mpr hcpu]

/-- Witness for C2 at a concrete pool. -/
theorem validateMachinePool_valid_ok_witness :
    ValidateMachinePool (fun q => q) (fun _ => some (1 : Int))
      ⟨2, "16Gi", "8Gi"⟩ [] = [] :=
  validateMachinePool_valid_ok (fun q => q) (fun _ => some (1 : Int))
    ⟨2, "16Gi", "8Gi"⟩ [] 1 1 (by norm_num) rfl rfl rfl rfl

/-- C3: ValidateMachinePool accumulates field-level errors rather than
failing fast: the result is exactly the concatenation, in the order cpu,
storage, memory, of one error for each invalid field and nothing for each
valid field. -/
theorem validateMachinePool_per_field {Q : Type} (sign : Q → Int)
    (parseQuantity : String → Option Q) (p : MachinePool) (fldPath : List String) :
    ValidateMachinePool sign parseQuantity p fldPath =
      (if p.CPU ≤ 0 then
        [⟨fldPath ++ ["cpu"], ErrValue.ofInt p.CPU, "CPU must be positive"⟩]
      else []) ++
      (match parseQuantity p.StorageSize with
       | none => [⟨fldPath ++ ["storage"], ErrValue.ofString p.StorageSize,
           "Storage size must be of Quantity type format"⟩]
       | some q => if sign q ≠ 1 then
           [⟨fldPath ++ ["storage"], ErrValue.ofString p.StorageSize,
             "Storage size must be positive value"⟩]
         else []) ++
      (match parseQuantity p.Memory with
       | none => [⟨fldPath ++ ["memory"], ErrValue.ofString p.Memory,
           "Memory must be of Quantity type format"⟩]
       | some q => if sign q ≠ 1 then
           [⟨fldPath ++ ["memory"], ErrValue.ofString p.Memory,
             "Memory must be positive value"⟩]
         else []) := by
  simp only [ValidateMachinePool]
  cases parseQuantity p.StorageSize <;> cases parseQuantity p.Memory <;>
    split_ifs <;> simp_all <;> split_ifs <;> simp_all

/-- C7: LoadKubeConfigContent returns the file content at the path named by
the KUBECONFIG environment variable, falling back to HOME/.kube/config when
that variable is empty or unset (os.Getenv yields "" in both cases). -/
theorem loadKubeConfigContent_env_or_default {R : Type} (getenv : String → String)
    (readFile : String → R) :
    (getenv "KUBECONFIG" ≠ "" →
      LoadKubeConfigContent getenv readFile = readFile (getenv "KUBECONFIG")) ∧
    (getenv "KUBECONFIG" = "" →
      LoadKubeConfigContent getenv readFile =
        readFile (filepathJoin [getenv "HOME", ".kube", "config"])) := by
  constructor <;> intro h <;>
    simp [LoadKubeConfigContent, kubeConfigEnvName, kubeConfigDefaultFilename, h]

/-- Witness for C7: one environment with KUBECONFIG set, one with only HOME. -/
theorem loadKubeConfigContent_env_or_default_witness :
    LoadKubeConfigContent (fun s => if s = "KUBECONFIG" then "/tmp/kc" else "")
      (fun p => p) = "/tmp/kc" ∧
    LoadKubeConfigContent (fun s => if s = "HOME" then "/home/user" else "")
      (fun p => p) = "/home/user/.kube/config" :=
  ⟨((loadKubeConfigContent_env_or_default
      (fun s => if s = "KUBECONFIG" then "/tmp/kc" else "") (fun p => p)).1
      (by decide)).trans (by decide),
   ((loadKubeConfigContent_env_or_default
      (fun s => if s = "HOME" then "/home/user" else "") (fun p => p)).2
      (by decide)).trans (by decide)⟩

/-- C10: the OperationProgress getters are total on the nil receiver:
GetProgressPercent returns 0 and GetStartTime and GetEndTime return nil. -/
theorem operationProgress_getters_nil_total :
    GetProgressPercent none = 0 ∧ GetStartTime none = none ∧ GetEndTime none = none :=
  ⟨rfl, rfl, rfl⟩

end Installer
